import Mathlib

set_option maxRecDepth 4000

/-!
Verification of the ERC4626 deposit helper (`src/index.ts`).

The library exposes one function, `deposit(client, {wallet, vault, amount})`,
which reads on-chain state through a viem `PublicClient` (the spec's
"Chain Reader" capability), validates the requested amount against the
wallet's balance, its allowance to the vault, and the vault's max-deposit
limit, then encodes the vault's `deposit(uint256,address)` call, estimates
gas, and returns a transaction descriptor.

The embedding below models addresses and uint256 values as `Nat`, the
Chain Reader as a record of fallible query functions, and `deposit` as a
pure function that also returns the ordered list of chain interactions it
issued, so that ordering and short-circuiting properties can be stated.
-/

/-- Chain addresses (values of the 160-bit `address` type). -/
abbrev Addr := Nat

/-- An opaque transport/execution failure raised by the chain-reading layer
(network error, would-revert simulation, ...). The core never inspects it;
the payload just makes distinct failures distinguishable. -/
structure RpcError where
  code : Nat
  deriving DecidableEq, Repr

/-- Outcome errors of `deposit`: the three named validation error classes of
`src/index.ts` plus verbatim propagation of a Chain Reader failure. -/
inductive DepositError where
  | notEnoughBalance
  | missingAllowance
  | amountExceedsMaxDeposit
  | readerFailure (e : RpcError)
  deriving DecidableEq, Repr

/-- The fixed message each error class passes to `super(...)` in
`src/index.ts`; a propagated reader failure has no message of its own. -/
def DepositError.message : DepositError → Option String
  | .notEnoughBalance => some ("Not enough balance")
  | .missingAllowance => some ("Not enough allowance")
  | .amountExceedsMaxDeposit => some ("Amount exceeds max deposit")
  | .readerFailure _ => none

/-- Source type `DepositParams` from `src/index.ts`: wallet, vault, amount. -/
structure DepositParams where
  wallet : Addr
  vault : Addr
  amount : Nat
  deriving DecidableEq, Repr

/-- Source type `Transaction` from `src/index.ts`: the returned descriptor. `data` is a
list of bytes (each `< 256`). -/
structure Transaction where
  data : List Nat
  «from» : Addr
  «to» : Addr
  value : Nat
  gas : Nat
  deriving DecidableEq, Repr

/-- One chain interaction issued by `deposit`, with its arguments. -/
inductive Query where
  | asset (vault : Addr)
  | balanceOf (token account : Addr)
  | allowance (token owner spender : Addr)
  | maxDeposit (vault receiver : Addr)
  | estimateGas (account «to» : Addr) (data : List Nat) (value : Nat)
  deriving DecidableEq, Repr

/-- The Chain Reader capability (viem `PublicClient` in the source): each
entry point used by the core, as a fallible function of its arguments.
`balanceOf` takes (token, account); `allowance` takes (token, owner,
spender); `maxDeposit` takes (vault, receiver); `estimateGas` takes
(account, to, data, value). -/
structure ChainReader where
  asset : Addr → Except RpcError Addr
  balanceOf : Addr → Addr → Except RpcError Nat
  allowance : Addr → Addr → Addr → Except RpcError Nat
  maxDeposit : Addr → Addr → Except RpcError Nat
  estimateGas : Addr → Addr → List Nat → Nat → Except RpcError Nat

/-! ### Keccak-256

The call-data encoder used by the source (`encodeFunctionData` from viem)
derives the 4-byte function selector from the keccak-256 hash of the
canonical signature. The following is the standard Keccak-f[1600] sponge
with rate 136 and the original 0x01 multi-rate padding (the Ethereum
variant), over 64-bit lanes modelled as `Nat` masked to 64 bits. -/

def mask64 : Nat := 2 ^ 64 - 1

def rotl64 (x n : Nat) : Nat := ((x <<< n) ||| (x >>> (64 - n))) &&& mask64

/-- Keccak rotation offsets, indexed `[x][y]` for the lane at column `x`,
row `y`. -/
def rotOff (x y : Nat) : Nat :=
  ([[0, 36, 3, 41, 18], [1, 44, 10, 45, 2], [62, 6, 43, 15, 61],
    [28, 55, 25, 21, 56], [27, 20, 39, 8, 14]].getD x []).getD y 0

def roundConstants : List Nat :=
  [0x0000000000000001, 0x0000000000008082, 0x800000000000808a,
   0x8000000080008000, 0x000000000000808b, 0x0000000080000001,
   0x8000000080008081, 0x8000000000008009, 0x000000000000008a,
   0x0000000000000088, 0x0000000080008009, 0x000000008000000a,
   0x000000008000808b, 0x800000000000008b, 0x8000000000008089,
   0x8000000000008003, 0x8000000000008002, 0x8000000000000080,
   0x000000000000800a, 0x800000008000000a, 0x8000000080008081,
   0x8000000000008080, 0x0000000080000001, 0x8000000080008008]

/-- The state is a list of 25 lanes; lane `(x, y)` sits at index `x + 5*y`. -/
def thetaStep (A : List Nat) : List Nat :=
  let C := fun x => A.getD x 0 ^^^ A.getD (x + 5) 0 ^^^ A.getD (x + 10) 0 ^^^
    A.getD (x + 15) 0 ^^^ A.getD (x + 20) 0
  let D := fun x => C ((x + 4) % 5) ^^^ rotl64 (C ((x + 1) % 5)) 1
  (List.range 25).map fun i => A.getD i 0 ^^^ D (i % 5)

/-- Combined ρ (rotation) and π (lane permutation) steps: the output lane at
`(X, Y)` is the input lane at `(x, y)` with `y = X` and `x = (X + 3*Y) % 5`
(the inverse of `(x, y) ↦ (y, (2x + 3y) % 5)`), rotated by its offset. -/
def rhoPiStep (A : List Nat) : List Nat :=
  (List.range 25).map fun j =>
    let X := j % 5
    let Y := j / 5
    let y := X
    let x := (X + 3 * Y) % 5
    rotl64 (A.getD (x + 5 * y) 0) (rotOff x y)

def chiStep (B : List Nat) : List Nat :=
  (List.range 25).map fun i =>
    let x := i % 5
    let y := i / 5
    B.getD i 0 ^^^ ((B.getD ((x + 1) % 5 + 5 * y) 0 ^^^ mask64) &&&
      B.getD ((x + 2) % 5 + 5 * y) 0)

/-- The full Keccak-f[1600] permutation: 24 rounds of θ, ρπ, χ and ι (the
round constant folded into lane 0). -/
def keccakF (A : List Nat) : List Nat :=
  roundConstants.foldl (fun S rc =>
    match chiStep (rhoPiStep (thetaStep S)) with
    | [] => []
    | b0 :: rest => (b0 ^^^ rc) :: rest) A

/-- Original Keccak multi-rate padding (`0x01 0x00* 0x80`, or a single
`0x81`) to a multiple of the 136-byte rate. -/
def keccakPad (msg : List Nat) : List Nat :=
  let padLen := 136 - msg.length % 136
  if padLen = 1 then msg ++ [0x81]
  else msg ++ 0x01 :: (List.replicate (padLen - 2) 0 ++ [0x80])

/-- A 64-bit lane from up to 8 little-endian bytes. -/
def bytesToLane (bs : List Nat) : Nat := bs.foldr (fun b acc => b + 256 * acc) 0

/-- The 8 little-endian bytes of a 64-bit lane. -/
def laneToBytes (n : Nat) : List Nat :=
  (List.range 8).map fun k => (n >>> (8 * k)) &&& 255

/-- XOR one 136-byte block into the first 17 lanes, then permute. -/
def absorbBlock (A block : List Nat) : List Nat :=
  keccakF ((List.range 25).map fun i =>
    A.getD i 0 ^^^ (if i < 17 then bytesToLane ((block.drop (8 * i)).take 8) else 0))

/-- Keccak-256 of a byte list: pad, absorb each block, squeeze 32 bytes. -/
def keccak256 (msg : List Nat) : List Nat :=
  let padded := keccakPad msg
  let final := (List.range (padded.length / 136)).foldl
    (fun A k => absorbBlock A ((padded.drop (136 * k)).take 136)) (List.replicate 25 0)
  ((List.range 4).map fun i => laneToBytes (final.getD i 0)).flatten

/-! ### Call-data encoding -/

/-- The bytes of an ASCII string. -/
def asciiBytes (s : String) : List Nat := s.toList.map Char.toNat

/-- The canonical signature of the vault's deposit entry in `ERC4626_ABI`
(`deposit(uint256 assets, address receiver)`). -/
def depositSignature : String := "deposit(uint256,address)"

/-- The 4-byte function selector: the first four bytes of the keccak-256
hash of the canonical signature. -/
def depositSelector : List Nat := (keccak256 (asciiBytes depositSignature)).take 4

/-- The `k` big-endian bytes of `n` (the low `8*k` bits, so a 32-byte word
holds `n % 2^256`). -/
def beBytes : Nat → Nat → List Nat
  | 0, _ => []
  | k + 1, n => ((n >>> (8 * k)) &&& 255) :: beBytes k n

/-- Modelled from the spec (§6, Call Encoder) and the `encodeFunctionData`
call of `src/index.ts`: viem's ABI encoding of the vault's
`deposit(uint256 assets, address receiver)` call applied to
`(amount, wallet)` — the 4-byte selector derived from the canonical
signature, followed by the two fixed-width big-endian-padded 32-byte
argument words. (viem itself is an external dependency, not part of this
repository's sources.) -/
def encodeFunctionData (amount wallet : Nat) : List Nat :=
  depositSelector ++ beBytes 32 amount ++ beBytes 32 wallet

/-! ### The deposit pipeline -/

/-- Embedding of `deposit` from `src/index.ts`. Returns the outcome paired
with the ordered list of chain interactions the call issued (the source's
sequence of `await`ed client calls). Each arm mirrors one step of the
source: resolve the vault's asset, check balance, check allowance, check
max deposit, encode the call data, estimate gas, assemble the result. -/
def deposit (client : ChainReader) (p : DepositParams) :
    Except DepositError Transaction × List Query :=
  match client.asset p.vault with
  | .error e => (.error (.readerFailure e), [.asset p.vault])
  | .ok assetAddress =>
    match client.balanceOf assetAddress p.wallet with
    | .error e => (.error (.readerFailure e),
        [.asset p.vault, .balanceOf assetAddress p.wallet])
    | .ok balance =>
      if balance < p.amount then
        (.error .notEnoughBalance,
         [.asset p.vault, .balanceOf assetAddress p.wallet])
      else
        match client.allowance assetAddress p.wallet p.vault with
        | .error e => (.error (.readerFailure e),
            [.asset p.vault, .balanceOf assetAddress p.wallet,
             .allowance assetAddress p.wallet p.vault])
        | .ok allowance =>
          if allowance < p.amount then
            (.error .missingAllowance,
             [.asset p.vault, .balanceOf assetAddress p.wallet,
              .allowance assetAddress p.wallet p.vault])
          else
            match client.maxDeposit p.vault p.wallet with
            | .error e => (.error (.readerFailure e),
                [.asset p.vault, .balanceOf assetAddress p.wallet,
                 .allowance assetAddress p.wallet p.vault,
                 .maxDeposit p.vault p.wallet])
            | .ok maxDeposit =>
              if p.amount > maxDeposit then
                (.error .amountExceedsMaxDeposit,
                 [.asset p.vault, .balanceOf assetAddress p.wallet,
                  .allowance assetAddress p.wallet p.vault,
                  .maxDeposit p.vault p.wallet])
              else
                match client.estimateGas p.wallet p.vault
                    (encodeFunctionData p.amount p.wallet) 0 with
                | .error e => (.error (.readerFailure e),
                    [.asset p.vault, .balanceOf assetAddress p.wallet,
                     .allowance assetAddress p.wallet p.vault,
                     .maxDeposit p.vault p.wallet,
                     .estimateGas p.wallet p.vault
                       (encodeFunctionData p.amount p.wallet) 0])
                | .ok gas =>
                  (.ok { data := encodeFunctionData p.amount p.wallet,
                         «from» := p.wallet, «to» := p.vault, value := 0,
                         gas := gas },
                   [.asset p.vault, .balanceOf assetAddress p.wallet,
                    .allowance assetAddress p.wallet p.vault,
                    .maxDeposit p.vault p.wallet,
                    .estimateGas p.wallet p.vault
                      (encodeFunctionData p.amount p.wallet) 0])

/-- The five chain interactions of a run in which every guard passes, in
their mandatory order. -/
def fullQueries (p : DepositParams) (token : Addr) : List Query :=
  [.asset p.vault, .balanceOf token p.wallet,
   .allowance token p.wallet p.vault, .maxDeposit p.vault p.wallet,
   .estimateGas p.wallet p.vault (encodeFunctionData p.amount p.wallet) 0]

/-- The number of chain interactions mandated for each outcome: the balance
guard fires after 2 queries, the allowance guard after 3, the cap guard
after 4, success needs all 5; a propagated reader failure can stop at any
stage (`none`: no count mandated). -/
def expectedQueryCount : Except DepositError Transaction → Option Nat
  | .ok _ => some 5
  | .error .notEnoughBalance => some 2
  | .error .missingAllowance => some 3
  | .error .amountExceedsMaxDeposit => some 4
  | .error (.readerFailure _) => none

/-! ### Concrete fixtures -/

/-- A Chain Reader answering each kind of query with a fixed response,
independent of the arguments. -/
def testClient (ra : Except RpcError Addr) (rb ral rmd rg : Except RpcError Nat) :
    ChainReader where
  asset := fun _ => ra
  balanceOf := fun _ _ => rb
  allowance := fun _ _ _ => ral
  maxDeposit := fun _ _ => rmd
  estimateGas := fun _ _ _ _ => rg

/-- Request fixture: wallet 5 deposits 100 into vault 6. -/
def p100 : DepositParams := { wallet := 5, vault := 6, amount := 100 }

/-- Request fixture: wallet 5 deposits 0 into vault 6. -/
def pZero : DepositParams := { wallet := 5, vault := 6, amount := 0 }

/-- Token 1; balance, allowance and cap all exactly 100 (the all-equal
boundary); gas estimate 21000. -/
def okClient : ChainReader :=
  testClient (.ok 1) (.ok 100) (.ok 100) (.ok 100) (.ok 21000)

/-- Same chain reads as `okClient` but the gas estimate is 0. -/
def gasZeroClient : ChainReader :=
  testClient (.ok 1) (.ok 100) (.ok 100) (.ok 100) (.ok 0)

/-- Same chain reads as `okClient` but gas estimation fails. -/
def estFailClient : ChainReader :=
  testClient (.ok 1) (.ok 100) (.ok 100) (.ok 100) (.error ⟨9⟩)

/-- Balance 99, ample allowance and cap. -/
def lowBalClient : ChainReader :=
  testClient (.ok 1) (.ok 99) (.ok 1000) (.ok 1000) (.ok 21000)

/-- Balance 1000, allowance 99, ample cap. -/
def lowAllowClient : ChainReader :=
  testClient (.ok 1) (.ok 1000) (.ok 99) (.ok 1000) (.ok 21000)

/-- Balance and allowance 1000, cap 99. -/
def lowCapClient : ChainReader :=
  testClient (.ok 1) (.ok 1000) (.ok 1000) (.ok 99) (.ok 21000)

/-- Every numeric read 0, gas estimate 21000 (for the zero-amount case). -/
def zeroStateClient : ChainReader :=
  testClient (.ok 1) (.ok 0) (.ok 0) (.ok 0) (.ok 21000)

/-- The descriptor a successful 100-token deposit by wallet 5 into vault 6
returns when the gas estimate is 21000. -/
def txOk : Transaction :=
  { data := encodeFunctionData 100 5, «from» := 5, «to» := 6, value := 0,
    gas := 21000 }

/-- Like `txOk` but with gas estimate 0. -/
def txZero : Transaction :=
  { data := encodeFunctionData 100 5, «from» := 5, «to» := 6, value := 0,
    gas := 0 }

/-! ### Evaluation lemmas: one per leaf of the pipeline -/

/-- The `asset()` read fails: the failure propagates and the run stops. -/
theorem deposit_asset_error (client : ChainReader) (p : DepositParams)
    (e : RpcError) (h : client.asset p.vault = .error e) :
    deposit client p = (.error (.readerFailure e), [.asset p.vault]) := by
  simp only [deposit, h]

/-- The `balanceOf` read fails after `asset()` succeeded. -/
theorem deposit_balanceOf_error (client : ChainReader) (p : DepositParams)
    (token : Addr) (e : RpcError)
    (h1 : client.asset p.vault = .ok token)
    (h2 : client.balanceOf token p.wallet = .error e) :
    deposit client p = (.error (.readerFailure e),
      [.asset p.vault, .balanceOf token p.wallet]) := by
  simp only [deposit, h1, h2]

/-- The balance guard fires: `balance < amount`. -/
theorem deposit_insufficient_balance (client : ChainReader) (p : DepositParams)
    (token b : Addr)
    (h1 : client.asset p.vault = .ok token)
    (h2 : client.balanceOf token p.wallet = .ok b)
    (hlt : b < p.amount) :
    deposit client p = (.error .notEnoughBalance,
      [.asset p.vault, .balanceOf token p.wallet]) := by
  simp only [deposit, h1, h2, if_pos hlt]

/-- The `allowance` read fails after the balance guard passed. -/
theorem deposit_allowance_error (client : ChainReader) (p : DepositParams)
    (token b : Addr) (e : RpcError)
    (h1 : client.asset p.vault = .ok token)
    (h2 : client.balanceOf token p.wallet = .ok b)
    (hb : p.amount ≤ b)
    (h3 : client.allowance token p.wallet p.vault = .error e) :
    deposit client p = (.error (.readerFailure e),
      [.asset p.vault, .balanceOf token p.wallet,
       .allowance token p.wallet p.vault]) := by
  simp only [deposit, h1, h2, if_neg (Nat.not_lt.mpr hb), h3]

/-- The allowance guard fires: `allowance < amount`. -/
theorem deposit_insufficient_allowance (client : ChainReader) (p : DepositParams)
    (token b al : Addr)
    (h1 : client.asset p.vault = .ok token)
    (h2 : client.balanceOf token p.wallet = .ok b)
    (hb : p.amount ≤ b)
    (h3 : client.allowance token p.wallet p.vault = .ok al)
    (hlt : al < p.amount) :
    deposit client p = (.error .missingAllowance,
      [.asset p.vault, .balanceOf token p.wallet,
       .allowance token p.wallet p.vault]) := by
  simp only [deposit, h1, h2, if_neg (Nat.not_lt.mpr hb), h3, if_pos hlt]

/-- The `maxDeposit` read fails after the allowance guard passed. -/
theorem deposit_maxDeposit_error (client : ChainReader) (p : DepositParams)
    (token b al : Addr) (e : RpcError)
    (h1 : client.asset p.vault = .ok token)
    (h2 : client.balanceOf token p.wallet = .ok b)
    (hb : p.amount ≤ b)
    (h3 : client.allowance token p.wallet p.vault = .ok al)
    (ha : p.amount ≤ al)
    (h4 : client.maxDeposit p.vault p.wallet = .error e) :
    deposit client p = (.error (.readerFailure e),
      [.asset p.vault, .balanceOf token p.wallet,
       .allowance token p.wallet p.vault, .maxDeposit p.vault p.wallet]) := by
  simp only [deposit, h1, h2, if_neg (Nat.not_lt.mpr hb), h3,
    if_neg (Nat.not_lt.mpr ha), h4]

/-- The cap guard fires: `amount > maxDeposit`. -/
theorem deposit_exceeds_max (client : ChainReader) (p : DepositParams)
    (token b al md : Addr)
    (h1 : client.asset p.vault = .ok token)
    (h2 : client.balanceOf token p.wallet = .ok b)
    (hb : p.amount ≤ b)
    (h3 : client.allowance token p.wallet p.vault = .ok al)
    (ha : p.amount ≤ al)
    (h4 : client.maxDeposit p.vault p.wallet = .ok md)
    (hlt : md < p.amount) :
    deposit client p = (.error .amountExceedsMaxDeposit,
      [.asset p.vault, .balanceOf token p.wallet,
       .allowance token p.wallet p.vault, .maxDeposit p.vault p.wallet]) := by
  simp only [deposit, h1, h2, if_neg (Nat.not_lt.mpr hb), h3,
    if_neg (Nat.not_lt.mpr ha), h4, if_pos hlt]

/-- Gas estimation fails after every guard passed. -/
theorem deposit_estimateGas_error (client : ChainReader) (p : DepositParams)
    (token b al md : Addr) (e : RpcError)
    (h1 : client.asset p.vault = .ok token)
    (h2 : client.balanceOf token p.wallet = .ok b)
    (hb : p.amount ≤ b)
    (h3 : client.allowance token p.wallet p.vault = .ok al)
    (ha : p.amount ≤ al)
    (h4 : client.maxDeposit p.vault p.wallet = .ok md)
    (hm : p.amount ≤ md)
    (h5 : client.estimateGas p.wallet p.vault
      (encodeFunctionData p.amount p.wallet) 0 = .error e) :
    deposit client p = (.error (.readerFailure e), fullQueries p token) := by
  simp only [deposit, h1, h2, if_neg (Nat.not_lt.mpr hb), h3,
    if_neg (Nat.not_lt.mpr ha), h4, if_neg (Nat.not_lt.mpr hm), h5, fullQueries]

/-- Every guard passes and gas estimation succeeds: the descriptor is
returned and all five queries were issued in order. -/
theorem deposit_success (client : ChainReader) (p : DepositParams)
    (token b al md g : Addr)
    (h1 : client.asset p.vault = .ok token)
    (h2 : client.balanceOf token p.wallet = .ok b)
    (hb : p.amount ≤ b)
    (h3 : client.allowance token p.wallet p.vault = .ok al)
    (ha : p.amount ≤ al)
    (h4 : client.maxDeposit p.vault p.wallet = .ok md)
    (hm : p.amount ≤ md)
    (h5 : client.estimateGas p.wallet p.vault
      (encodeFunctionData p.amount p.wallet) 0 = .ok g) :
    deposit client p = (.ok { data := encodeFunctionData p.amount p.wallet,
                              «from» := p.wallet, «to» := p.vault,
                              value := 0, gas := g },
      fullQueries p token) := by
  simp only [deposit, h1, h2, if_neg (Nat.not_lt.mpr hb), h3,
    if_neg (Nat.not_lt.mpr ha), h4, if_neg (Nat.not_lt.mpr hm), h5, fullQueries]

/-- Inversion: a successful run determines every read result, every guard,
the returned descriptor and the full query trace. -/
theorem deposit_ok_inv (client : ChainReader) (p : DepositParams)
    (tx : Transaction) (trace : List Query)
    (h : deposit client p = (.ok tx, trace)) :
    ∃ token b al md g,
      client.asset p.vault = .ok token ∧
      client.balanceOf token p.wallet = .ok b ∧ p.amount ≤ b ∧
      client.allowance token p.wallet p.vault = .ok al ∧ p.amount ≤ al ∧
      client.maxDeposit p.vault p.wallet = .ok md ∧ p.amount ≤ md ∧
      client.estimateGas p.wallet p.vault
        (encodeFunctionData p.amount p.wallet) 0 = .ok g ∧
      tx = { data := encodeFunctionData p.amount p.wallet,
             «from» := p.wallet, «to» := p.vault, value := 0, gas := g } ∧
      trace = fullQueries p token := by
  cases h1 : client.asset p.vault with
  | error e => rw [deposit_asset_error client p e h1] at h; simp at h
  | ok token =>
    cases h2 : client.balanceOf token p.wallet with
    | error e => rw [deposit_balanceOf_error client p token e h1 h2] at h; simp at h
    | ok b =>
      by_cases hb : b < p.amount
      · rw [deposit_insufficient_balance client p token b h1 h2 hb] at h
        simp at h
      · replace hb := Nat.not_lt.mp hb
        cases h3 : client.allowance token p.wallet p.vault with
        | error e =>
          rw [deposit_allowance_error client p token b e h1 h2 hb h3] at h
          simp at h
        | ok al =>
          by_cases hal : al < p.amount
          · rw [deposit_insufficient_allowance client p token b al h1 h2 hb h3 hal] at h
            simp at h
          · replace hal := Nat.not_lt.mp hal
            cases h4 : client.maxDeposit p.vault p.wallet with
            | error e =>
              rw [deposit_maxDeposit_error client p token b al e h1 h2 hb h3 hal h4] at h
              simp at h
            | ok md =>
              by_cases hmd : md < p.amount
              · rw [deposit_exceeds_max client p token b al md h1 h2 hb h3 hal h4 hmd] at h
                simp at h
              · replace hmd := Nat.not_lt.mp hmd
                cases h5 : client.estimateGas p.wallet p.vault
                    (encodeFunctionData p.amount p.wallet) 0 with
                | error e =>
                  rw [deposit_estimateGas_error client p token b al md e
                    h1 h2 hb h3 hal h4 hmd h5] at h
                  simp at h
                | ok g =>
                  rw [deposit_success client p token b al md g
                    h1 h2 hb h3 hal h4 hmd h5] at h
                  simp only [Prod.mk.injEq, Except.ok.injEq] at h
                  exact ⟨token, b, al, md, g, rfl, h2, hb, h3, hal, rfl, hmd, rfl,
                    h.1.symm, h.2.symm⟩

/-- C1: once the asset is resolved and the balance read, a balance strictly
below the requested amount fails with InsufficientBalance (fixed message
"Not enough balance") and neither the allowance nor the max-deposit query
is issued (the trace stops at the balance read); with balance ≥ amount
(equality included) the guard passes and the allowance query is issued
next. -/
theorem claim_balance_guard (client : ChainReader) (p : DepositParams)
    (token b : Addr)
    (h1 : client.asset p.vault = .ok token)
    (h2 : client.balanceOf token p.wallet = .ok b) :
    (b < p.amount →
      deposit client p = (.error .notEnoughBalance,
        [.asset p.vault, .balanceOf token p.wallet]) ∧
      DepositError.notEnoughBalance.message = some ("Not enough balance")) ∧
    (p.amount ≤ b → ∃ rest, (deposit client p).2 =
      .asset p.vault :: .balanceOf token p.wallet ::
      .allowance token p.wallet p.vault :: rest) := by
  constructor
  · intro hlt
    exact ⟨deposit_insufficient_balance client p token b h1 h2 hlt, rfl⟩
  · intro hb
    cases h3 : client.allowance token p.wallet p.vault with
    | error e =>
      rw [deposit_allowance_error client p token b e h1 h2 hb h3]
      exact ⟨[], rfl⟩
    | ok al =>
      by_cases hal : al < p.amount
      · rw [deposit_insufficient_allowance client p token b al h1 h2 hb h3 hal]
        exact ⟨[], rfl⟩
      · replace hal := Nat.not_lt.mp hal
        cases h4 : client.maxDeposit p.vault p.wallet with
        | error e =>
          rw [deposit_maxDeposit_error client p token b al e h1 h2 hb h3 hal h4]
          exact ⟨_, rfl⟩
        | ok md =>
          by_cases hmd : md < p.amount
          · rw [deposit_exceeds_max client p token b al md h1 h2 hb h3 hal h4 hmd]
            exact ⟨_, rfl⟩
          · replace hmd := Nat.not_lt.mp hmd
            cases h5 : client.estimateGas p.wallet p.vault
                (encodeFunctionData p.amount p.wallet) 0 with
            | error e =>
              rw [deposit_estimateGas_error client p token b al md e
                h1 h2 hb h3 hal h4 hmd h5]
              exact ⟨_, rfl⟩
            | ok g =>
              rw [deposit_success client p token b al md g
                h1 h2 hb h3 hal h4 hmd h5]
              exact ⟨_, rfl⟩

theorem claim_balance_guard_witness :
    deposit lowBalClient p100 = (.error .notEnoughBalance,
      [.asset 6, .balanceOf 1 5]) ∧
    DepositError.notEnoughBalance.message = some ("Not enough balance") :=
  (claim_balance_guard lowBalClient p100 1 99 rfl rfl).1 (by decide)

/-- C2: with the balance guard passed, an allowance strictly below the
requested amount fails with InsufficientAllowance (fixed message
"Not enough allowance") and the run stops at the allowance read; with
allowance ≥ amount (equality included) the guard passes and the
max-deposit query is issued next. -/
theorem claim_allowance_guard (client : ChainReader) (p : DepositParams)
    (token b al : Addr)
    (h1 : client.asset p.vault = .ok token)
    (h2 : client.balanceOf token p.wallet = .ok b)
    (hb : p.amount ≤ b)
    (h3 : client.allowance token p.wallet p.vault = .ok al) :
    (al < p.amount →
      deposit client p = (.error .missingAllowance,
        [.asset p.vault, .balanceOf token p.wallet,
         .allowance token p.wallet p.vault]) ∧
      DepositError.missingAllowance.message = some ("Not enough allowance")) ∧
    (p.amount ≤ al → ∃ rest, (deposit client p).2 =
      .asset p.vault :: .balanceOf token p.wallet ::
      .allowance token p.wallet p.vault :: .maxDeposit p.vault p.wallet ::
      rest) := by
  constructor
  · intro hlt
    exact ⟨deposit_insufficient_allowance client p token b al h1 h2 hb h3 hlt, rfl⟩
  · intro hal
    cases h4 : client.maxDeposit p.vault p.wallet with
    | error e =>
      rw [deposit_maxDeposit_error client p token b al e h1 h2 hb h3 hal h4]
      exact ⟨[], rfl⟩
    | ok md =>
      by_cases hmd : md < p.amount
      · rw [deposit_exceeds_max client p token b al md h1 h2 hb h3 hal h4 hmd]
        exact ⟨[], rfl⟩
      · replace hmd := Nat.not_lt.mp hmd
        cases h5 : client.estimateGas p.wallet p.vault
            (encodeFunctionData p.amount p.wallet) 0 with
        | error e =>
          rw [deposit_estimateGas_error client p token b al md e
            h1 h2 hb h3 hal h4 hmd h5]
          exact ⟨_, rfl⟩
        | ok g =>
          rw [deposit_success client p token b al md g h1 h2 hb h3 hal h4 hmd h5]
          exact ⟨_, rfl⟩

theorem claim_allowance_guard_witness :
    deposit lowAllowClient p100 = (.error .missingAllowance,
      [.asset 6, .balanceOf 1 5, .allowance 1 5 6]) ∧
    DepositError.missingAllowance.message = some ("Not enough allowance") :=
  (claim_allowance_guard lowAllowClient p100 1 1000 99 rfl rfl (by decide) rfl).1
    (by decide)

/-- C3: with balance and allowance sufficient, an amount strictly above
`maxDeposit(wallet)` fails with ExceedsMaxDeposit (fixed message
"Amount exceeds max deposit") and the run stops at the max-deposit read;
with amount ≤ maxDeposit (a deposit exactly at the cap included) the guard
passes and the gas-estimation query is issued. -/
theorem claim_max_deposit_guard (client : ChainReader) (p : DepositParams)
    (token b al md : Addr)
    (h1 : client.asset p.vault = .ok token)
    (h2 : client.balanceOf token p.wallet = .ok b)
    (hb : p.amount ≤ b)
    (h3 : client.allowance token p.wallet p.vault = .ok al)
    (hal : p.amount ≤ al)
    (h4 : client.maxDeposit p.vault p.wallet = .ok md) :
    (md < p.amount →
      deposit client p = (.error .amountExceedsMaxDeposit,
        [.asset p.vault, .balanceOf token p.wallet,
         .allowance token p.wallet p.vault, .maxDeposit p.vault p.wallet]) ∧
      DepositError.amountExceedsMaxDeposit.message =
        some ("Amount exceeds max deposit")) ∧
    (p.amount ≤ md → (deposit client p).2 = fullQueries p token) := by
  constructor
  · intro hlt
    exact ⟨deposit_exceeds_max client p token b al md h1 h2 hb h3 hal h4 hlt, rfl⟩
  · intro hmd
    cases h5 : client.estimateGas p.wallet p.vault
        (encodeFunctionData p.amount p.wallet) 0 with
    | error e =>
      rw [deposit_estimateGas_error client p token b al md e
        h1 h2 hb h3 hal h4 hmd h5]
    | ok g =>
      rw [deposit_success client p token b al md g h1 h2 hb h3 hal h4 hmd h5]

theorem claim_max_deposit_guard_witness :
    deposit lowCapClient p100 = (.error .amountExceedsMaxDeposit,
      [.asset 6, .balanceOf 1 5, .allowance 1 5 6, .maxDeposit 6 5]) ∧
    DepositError.amountExceedsMaxDeposit.message =
      some ("Amount exceeds max deposit") :=
  (claim_max_deposit_guard lowCapClient p100 1 1000 1000 99 rfl rfl (by decide)
    rfl (by decide) rfl).1 (by decide)

/-- C4 fails as stated: the core performs no positivity check on the gas
estimate, so with a reader whose estimate is 0 the call still succeeds and
the returned descriptor has gas = 0, contradicting "gas > 0". -/
theorem claim_success_invariants_counterexample :
    (deposit gasZeroClient p100).1.map Transaction.gas = Except.ok 0 := rfl

/-- C4 (amended): for every successful call, from == wallet, to == vault,
value == 0, and data is the encoded deposit call, beginning with the
4-byte selector; the gas field is exactly the reader's estimate — the core
never checks it to be positive, so gas > 0 holds exactly when the estimate
is positive. -/
theorem claim_success_invariants (client : ChainReader) (p : DepositParams)
    (tx : Transaction) (trace : List Query)
    (h : deposit client p = (.ok tx, trace)) :
    tx.«from» = p.wallet ∧ tx.«to» = p.vault ∧ tx.value = 0 ∧
    tx.data = encodeFunctionData p.amount p.wallet ∧
    tx.data.take 4 = depositSelector ∧
    client.estimateGas p.wallet p.vault tx.data 0 = .ok tx.gas := by
  obtain ⟨token, b, al, md, g, h1, h2, hb, h3, hal, h4, hmd, h5, htx, htr⟩ :=
    deposit_ok_inv client p tx trace h
  subst htx
  refine ⟨rfl, rfl, rfl, rfl, ?_, h5⟩
  have hsel : depositSelector.length = 4 := by decide
  show (depositSelector ++ beBytes 32 p.amount ++ beBytes 32 p.wallet).take 4 =
    depositSelector
  rw [List.append_assoc, ← hsel, List.take_left]

theorem claim_success_invariants_witness :
    txOk.«from» = 5 ∧ txOk.«to» = 6 ∧ txOk.value = 0 ∧
    txOk.data = encodeFunctionData 100 5 ∧
    txOk.data.take 4 = depositSelector ∧
    okClient.estimateGas 5 6 txOk.data 0 = .ok 21000 :=
  claim_success_invariants okClient p100 txOk (fullQueries p100 1) rfl

/-- C5: in every invocation the issued queries form a prefix, in order, of
asset → balanceOf → allowance → maxDeposit → estimateGas with the proper
arguments, and the outcome mandates where the run stopped: 2 queries for
InsufficientBalance, 3 for InsufficientAllowance, 4 for ExceedsMaxDeposit,
all 5 for success; so once a named error fires no further query is issued.
(A propagated reader failure stops at the failing query, wherever that
was.) -/
theorem claim_query_order (client : ChainReader) (p : DepositParams) :
    (∃ token rest, (deposit client p).2 ++ rest = fullQueries p token) ∧
    (expectedQueryCount (deposit client p).1).getD (deposit client p).2.length =
      (deposit client p).2.length := by
  cases h1 : client.asset p.vault with
  | error e =>
    rw [deposit_asset_error client p e h1]
    exact ⟨⟨0, _, rfl⟩, rfl⟩
  | ok token =>
    cases h2 : client.balanceOf token p.wallet with
    | error e =>
      rw [deposit_balanceOf_error client p token e h1 h2]
      exact ⟨⟨token, _, rfl⟩, rfl⟩
    | ok b =>
      by_cases hb : b < p.amount
      · rw [deposit_insufficient_balance client p token b h1 h2 hb]
        exact ⟨⟨token, _, rfl⟩, rfl⟩
      · replace hb := Nat.not_lt.mp hb
        cases h3 : client.allowance token p.wallet p.vault with
        | error e =>
          rw [deposit_allowance_error client p token b e h1 h2 hb h3]
          exact ⟨⟨token, _, rfl⟩, rfl⟩
        | ok al =>
          by_cases hal : al < p.amount
          · rw [deposit_insufficient_allowance client p token b al h1 h2 hb h3 hal]
            exact ⟨⟨token, _, rfl⟩, rfl⟩
          · replace hal := Nat.not_lt.mp hal
            cases h4 : client.maxDeposit p.vault p.wallet with
            | error e =>
              rw [deposit_maxDeposit_error client p token b al e h1 h2 hb h3 hal h4]
              exact ⟨⟨token, _, rfl⟩, rfl⟩
            | ok md =>
              by_cases hmd : md < p.amount
              · rw [deposit_exceeds_max client p token b al md h1 h2 hb h3 hal h4 hmd]
                exact ⟨⟨token, _, rfl⟩, rfl⟩
              · replace hmd := Nat.not_lt.mp hmd
                cases h5 : client.estimateGas p.wallet p.vault
                    (encodeFunctionData p.amount p.wallet) 0 with
                | error e =>
                  rw [deposit_estimateGas_error client p token b al md e
                    h1 h2 hb h3 hal h4 hmd h5]
                  exact ⟨⟨token, [], List.append_nil _⟩, rfl⟩
                | ok g =>
                  rw [deposit_success client p token b al md g
                    h1 h2 hb h3 hal h4 hmd h5]
                  exact ⟨⟨token, [], List.append_nil _⟩, rfl⟩

/-- C6: a Chain Reader failure at any of the five chain interactions
propagates verbatim as `readerFailure e` — never wrapped into or replaced
by one of the three named validation errors — and the run stops at the
failing query with no retry or fallback. -/
theorem claim_reader_failure_propagation (client : ChainReader)
    (p : DepositParams) (e : RpcError) :
    (client.asset p.vault = .error e →
      deposit client p = (.error (.readerFailure e), [.asset p.vault])) ∧
    (∀ token, client.asset p.vault = .ok token →
      (client.balanceOf token p.wallet = .error e →
        deposit client p = (.error (.readerFailure e),
          [.asset p.vault, .balanceOf token p.wallet])) ∧
      (∀ b, client.balanceOf token p.wallet = .ok b → p.amount ≤ b →
        (client.allowance token p.wallet p.vault = .error e →
          deposit client p = (.error (.readerFailure e),
            [.asset p.vault, .balanceOf token p.wallet,
             .allowance token p.wallet p.vault])) ∧
        (∀ al, client.allowance token p.wallet p.vault = .ok al →
          p.amount ≤ al →
          (client.maxDeposit p.vault p.wallet = .error e →
            deposit client p = (.error (.readerFailure e),
              [.asset p.vault, .balanceOf token p.wallet,
               .allowance token p.wallet p.vault,
               .maxDeposit p.vault p.wallet])) ∧
          (∀ md, client.maxDeposit p.vault p.wallet = .ok md →
            p.amount ≤ md →
            client.estimateGas p.wallet p.vault
              (encodeFunctionData p.amount p.wallet) 0 = .error e →
            deposit client p = (.error (.readerFailure e),
              fullQueries p token))))) :=
  ⟨fun h => deposit_asset_error client p e h,
   fun token h1 =>
     ⟨fun h2 => deposit_balanceOf_error client p token e h1 h2,
      fun b h2 hb =>
        ⟨fun h3 => deposit_allowance_error client p token b e h1 h2 hb h3,
         fun al h3 hal =>
           ⟨fun h4 =>
              deposit_maxDeposit_error client p token b al e h1 h2 hb h3 hal h4,
            fun md h4 hmd h5 =>
              deposit_estimateGas_error client p token b al md e
                h1 h2 hb h3 hal h4 hmd h5⟩⟩⟩⟩

theorem claim_reader_failure_propagation_witness :
    deposit estFailClient p100 = (.error (.readerFailure ⟨9⟩),
      fullQueries p100 1) :=
  ((((claim_reader_failure_propagation estFailClient p100 ⟨9⟩).2 1 rfl).2 100
    rfl (by decide)).2 100 rfl (by decide)).2 100 rfl (by decide) rfl

/-- C7: for every successful call, the data field is the ABI encoding of
the vault's `deposit(uint256 assets, address receiver)` call applied to
(amount, wallet): the 4-byte selector derived as the first four bytes of
the keccak-256 hash of the canonical signature — concretely `0x6e553f65` —
followed by the two fixed-width big-endian-padded 32-byte argument
words. -/
theorem claim_calldata_abi (client : ChainReader) (p : DepositParams)
    (tx : Transaction) (trace : List Query)
    (h : deposit client p = (.ok tx, trace))
    (_ha : p.amount < 2 ^ 256) (_hw : p.wallet < 2 ^ 160) :
    tx.data = (keccak256 (asciiBytes depositSignature)).take 4 ++
      beBytes 32 p.amount ++ beBytes 32 p.wallet ∧
    (keccak256 (asciiBytes depositSignature)).take 4 =
      [0x6e, 0x55, 0x3f, 0x65] := by
  obtain ⟨token, b, al, md, g, h1, h2, hb, h3, hal, h4, hmd, h5, htx, htr⟩ :=
    deposit_ok_inv client p tx trace h
  subst htx
  exact ⟨rfl, by decide⟩

theorem claim_calldata_abi_witness :
    txOk.data = (keccak256 (asciiBytes depositSignature)).take 4 ++
      beBytes 32 100 ++ beBytes 32 5 ∧
    (keccak256 (asciiBytes depositSignature)).take 4 =
      [0x6e, 0x55, 0x3f, 0x65] :=
  claim_calldata_abi okClient p100 txOk (fullQueries p100 1) rfl (by decide)
    (by decide)

/-- C8 fails as stated: two invocations against identical chain-read
results (the two readers agree on every read entry point) can both
succeed with one of them returning gas = 0, contradicting "the gas of
each is > 0". -/
theorem claim_repeat_determinism_counterexample :
    okClient.asset = gasZeroClient.asset ∧
    okClient.balanceOf = gasZeroClient.balanceOf ∧
    okClient.allowance = gasZeroClient.allowance ∧
    okClient.maxDeposit = gasZeroClient.maxDeposit ∧
    (deposit okClient p100).1.map Transaction.gas = Except.ok 21000 ∧
    (deposit gasZeroClient p100).1.map Transaction.gas = Except.ok 0 :=
  ⟨rfl, rfl, rfl, rfl, rfl, rfl⟩

/-- C8 (amended): two successful invocations with the same request and
identical chain-read results return descriptors with identical data, from,
to and value; each invocation's gas is exactly its own reader's estimate
(the two estimates may differ, and each gas is > 0 exactly when its
estimate is — the core adds no positivity check). -/
theorem claim_repeat_determinism (c1 c2 : ChainReader) (p : DepositParams)
    (tx1 tx2 : Transaction) (t1 t2 : List Query)
    (_hasset : c1.asset p.vault = c2.asset p.vault)
    (_hbal : ∀ a, c1.balanceOf a p.wallet = c2.balanceOf a p.wallet)
    (_hallow : ∀ a, c1.allowance a p.wallet p.vault = c2.allowance a p.wallet p.vault)
    (_hmax : c1.maxDeposit p.vault p.wallet = c2.maxDeposit p.vault p.wallet)
    (h1 : deposit c1 p = (.ok tx1, t1))
    (h2 : deposit c2 p = (.ok tx2, t2)) :
    tx1.data = tx2.data ∧ tx1.«from» = tx2.«from» ∧ tx1.«to» = tx2.«to» ∧
    tx1.value = tx2.value ∧
    c1.estimateGas p.wallet p.vault tx1.data 0 = .ok tx1.gas ∧
    c2.estimateGas p.wallet p.vault tx2.data 0 = .ok tx2.gas := by
  obtain ⟨_, _, _, _, g1, _, _, _, _, _, _, _, e1, htx1, _⟩ :=
    deposit_ok_inv c1 p tx1 t1 h1
  obtain ⟨_, _, _, _, g2, _, _, _, _, _, _, _, e2, htx2, _⟩ :=
    deposit_ok_inv c2 p tx2 t2 h2
  subst htx1; subst htx2
  exact ⟨rfl, rfl, rfl, rfl, e1, e2⟩

theorem claim_repeat_determinism_witness :
    txOk.data = txZero.data ∧ txOk.«from» = txZero.«from» ∧
    txOk.«to» = txZero.«to» ∧ txOk.value = txZero.value ∧
    okClient.estimateGas 5 6 txOk.data 0 = .ok 21000 ∧
    gasZeroClient.estimateGas 5 6 txZero.data 0 = .ok 0 :=
  claim_repeat_determinism okClient gasZeroClient p100 txOk txZero
    (fullQueries p100 1) (fullQueries p100 1) rfl (fun _ => rfl)
    (fun _ => rfl) rfl rfl rfl

/-- C9: a zero-amount request passes all three guards for any read values
(an all-zero chain state included) and proceeds to the encode and
gas-estimation steps; deposit itself never rejects amount == 0. -/
theorem claim_zero_amount (client : ChainReader) (p : DepositParams)
    (token : Addr) (b al md : Nat)
    (h0 : p.amount = 0)
    (h1 : client.asset p.vault = .ok token)
    (h2 : client.balanceOf token p.wallet = .ok b)
    (h3 : client.allowance token p.wallet p.vault = .ok al)
    (h4 : client.maxDeposit p.vault p.wallet = .ok md) :
    (deposit client p).2 = fullQueries p token ∧
    (deposit client p).1 ≠ .error .notEnoughBalance ∧
    (deposit client p).1 ≠ .error .missingAllowance ∧
    (deposit client p).1 ≠ .error .amountExceedsMaxDeposit := by
  have hb : p.amount ≤ b := by rw [h0]; exact Nat.zero_le b
  have hal : p.amount ≤ al := by rw [h0]; exact Nat.zero_le al
  have hmd : p.amount ≤ md := by rw [h0]; exact Nat.zero_le md
  cases h5 : client.estimateGas p.wallet p.vault
      (encodeFunctionData p.amount p.wallet) 0 with
  | error e =>
    rw [deposit_estimateGas_error client p token b al md e h1 h2 hb h3 hal h4 hmd h5]
    exact ⟨rfl, by simp, by simp, by simp⟩
  | ok g =>
    rw [deposit_success client p token b al md g h1 h2 hb h3 hal h4 hmd h5]
    exact ⟨rfl, by simp, by simp, by simp⟩

theorem claim_zero_amount_witness :
    (deposit zeroStateClient pZero).2 = fullQueries pZero 1 :=
  (claim_zero_amount zeroStateClient pZero 1 0 0 0 rfl rfl rfl rfl rfl).1

/-- C10: the returned gas is exactly the value the reader's gas estimation
produced, with no adjustment, rounding or positivity check: with all
guards passing and an estimate of g — 0 included — the call succeeds and
returns a descriptor whose gas is g. -/
theorem claim_gas_passthrough (client : ChainReader) (p : DepositParams)
    (token : Addr) (b al md g : Nat)
    (h1 : client.asset p.vault = .ok token)
    (h2 : client.balanceOf token p.wallet = .ok b)
    (hb : p.amount ≤ b)
    (h3 : client.allowance token p.wallet p.vault = .ok al)
    (hal : p.amount ≤ al)
    (h4 : client.maxDeposit p.vault p.wallet = .ok md)
    (hmd : p.amount ≤ md)
    (h5 : client.estimateGas p.wallet p.vault
      (encodeFunctionData p.amount p.wallet) 0 = .ok g) :
    (deposit client p).1 =
      .ok { data := encodeFunctionData p.amount p.wallet,
            «from» := p.wallet, «to» := p.vault, value := 0, gas := g } := by
  rw [deposit_success client p token b al md g h1 h2 hb h3 hal h4 hmd h5]

theorem claim_gas_passthrough_witness :
    (deposit gasZeroClient p100).1 =
      .ok { data := encodeFunctionData 100 5, «from» := 5, «to» := 6,
            value := 0, gas := 0 } :=
  claim_gas_passthrough gasZeroClient p100 1 100 100 100 0 rfl rfl
    (Nat.le_refl 100) rfl (Nat.le_refl 100) rfl (Nat.le_refl 100) rfl
